import Mathlib

/-!
Shallow embedding of the core logic of react-signature-pad-wrapper
(src/dist/react-signature-pad-wrapper.js).

Part 1: the throttle/debounce rate limiter (source lines 28-129).
The JS closure captures `delay`, `noTrailing`, `callback`, `debounceMode`
(after the argument-shifting normalization at lines 39-43) plus the mutable
variables `timeoutID` and `lastExec`.  We model the captured configuration
as `ThrottleCfg`, the mutable closure state together with the host's timer
queue as `LimiterState`, a wrapper invocation as `callStep`, and the host
firing due timers as `fireDue`.  Timers are kept in a list with explicit
numeric handles, exactly as setTimeout/clearTimeout manage them, so that
"at most one pending timer" is a provable invariant rather than a modelling
assumption.

Part 2: the component (canvas rescaling, lifecycle, proxied setters),
source lines 193-429.
-/

namespace RSPW

/-- JavaScript values relevant to the limiter's argument sniffing and to the
event-callback setters: undefined, booleans, and functions (identified by a
numeric id). -/
inductive JSVal where
  | undef : JSVal
  | bool : Bool → JSVal
  | fn : Nat → JSVal
deriving DecidableEq

/-- JS truthiness of a `JSVal` (functions are truthy, undefined is falsy). -/
def JSVal.truthy : JSVal → Bool
  | JSVal.undef => false
  | JSVal.bool b => b
  | JSVal.fn _ => true

/-- Models the JS test (typeof v === \x27boolean\x27). -/
def JSVal.isBool : JSVal → Bool
  | JSVal.bool _ => true
  | _ => false

/-- Models the JS test (typeof v === \x27function\x27). -/
def JSVal.isFn : JSVal → Bool
  | JSVal.fn _ => true
  | _ => false

/-- The configuration captured by the `wrapper` closure returned by
`throttle` (source line 28): delay plus the three mode arguments after the
shifting normalization of lines 39-43 has run. -/
structure ThrottleCfg where
  delay : Nat
  noTrailing : JSVal
  callback : JSVal
  debounceMode : JSVal
deriving DecidableEq

/-- Source lines 28-43: `throttle(delay, noTrailing, callback, debounceMode)`.
If the value in the `noTrailing` position is not a boolean, the arguments
shift: `debounceMode = callback; callback = noTrailing;
noTrailing = undefined` (the original `debounceMode` value is discarded). -/
def throttle (delay : Nat) (noTrailing callback debounceMode : JSVal) : ThrottleCfg :=
  if noTrailing.isBool then
    { delay := delay, noTrailing := noTrailing, callback := callback,
      debounceMode := debounceMode }
  else
    { delay := delay, noTrailing := JSVal.undef, callback := noTrailing,
      debounceMode := callback }

/-- Source lines 127-129: `debounce(delay, atBegin, callback)` forwards to
`throttle`; when `callback` is undefined (the two-argument form) it calls
`throttle(delay, atBegin, false)`, otherwise
`throttle(delay, callback, atBegin !== false)`. -/
def debounce (delay : Nat) (atBegin callback : JSVal) : ThrottleCfg :=
  if callback = JSVal.undef then
    throttle delay atBegin (JSVal.bool false) JSVal.undef
  else
    throttle delay callback (JSVal.bool (decide (atBegin ≠ JSVal.bool false))) JSVal.undef

/-- What a scheduled timer does when it fires: the `exec` closure (call the
callback with the captured arguments, stamping `lastExec`), or the `clear`
closure (reset `timeoutID`), source lines 55-64. -/
inductive TimerAction (α : Type) where
  | execCb : α → TimerAction α
  | clearFlag : TimerAction α
deriving DecidableEq

/-- A timer sitting in the host environment's queue, as created by
`setTimeout` at source line 92. -/
structure ScheduledTimer (α : Type) where
  handle : Nat
  fireTime : Nat
  action : TimerAction α
deriving DecidableEq

/-- The mutable state of one limiter instance: the closure variables
`lastExec` (line 36) and `timeoutID` (line 33, which may hold a stale handle
after an exec-timer fires, since `exec` never resets it), together with the
host timer queue and a fresh-handle counter. -/
structure LimiterState (α : Type) where
  lastExec : Nat
  timeoutID : Option Nat
  timers : List (ScheduledTimer α)
  nextHandle : Nat
deriving DecidableEq

/-- A freshly constructed limiter: `lastExec = 0`, no `timeoutID`, empty
timer queue. Handles start at 1 (setTimeout returns positive ids). -/
def initLimiter {α : Type} : LimiterState α :=
  { lastExec := 0, timeoutID := none, timers := [], nextHandle := 1 }

/-- Source line 66: in leading-debounce mode with no flag set, execute the
callback immediately. -/
def leadingExec {α : Type} (cfg : ThrottleCfg) (s : LimiterState α) (now : Nat)
    (args : α) : LimiterState α × List (Nat × α) :=
  if cfg.debounceMode.truthy && s.timeoutID.isNone then
    ({ s with lastExec := now }, [(now, args)])
  else (s, [])

/-- Source lines 73-75: `if (timeoutID) clearTimeout(timeoutID)`.  The
variable `timeoutID` itself is left untouched; the timer with that handle is
removed from the host queue (a no-op for a stale handle). -/
def clearPending {α : Type} (s : LimiterState α) : LimiterState α :=
  match s.timeoutID with
  | some h => { s with timers := s.timers.filter (fun tm => tm.handle != h) }
  | none => s

/-- Source line 92: `setTimeout(debounceMode ? clear : exec,
debounceMode === undefined ? delay - elapsed : delay)`. -/
def scheduleTimer {α : Type} (cfg : ThrottleCfg) (s : LimiterState α)
    (now elapsed : Nat) (args : α) : LimiterState α :=
  { s with
    timers := s.timers ++
      [{ handle := s.nextHandle,
         fireTime := now +
           (if cfg.debounceMode = JSVal.undef then cfg.delay - elapsed else cfg.delay),
         action := if cfg.debounceMode.truthy then TimerAction.clearFlag
                   else TimerAction.execCb args }],
    timeoutID := some s.nextHandle,
    nextHandle := s.nextHandle + 1 }

/-- One invocation of the `wrapper` function (source lines 48-95) at time
`now` with arguments `args`.  Returns the new state and the list of callback
executions (time, arguments) performed synchronously during the call. -/
def callStep {α : Type} (cfg : ThrottleCfg) (s : LimiterState α) (now : Nat)
    (args : α) : LimiterState α × List (Nat × α) :=
  let elapsed := now - s.lastExec
  let p := leadingExec cfg s now args
  let s2 := clearPending p.1
  if cfg.debounceMode = JSVal.undef ∧ elapsed > cfg.delay then
    ({ s2 with lastExec := now }, p.2 ++ [(now, args)])
  else if cfg.noTrailing ≠ JSVal.bool true then
    (scheduleTimer cfg s2 now elapsed args, p.2)
  else (s2, p.2)

/-- The host fires one timer: it is removed from the queue; `exec` stamps
`lastExec` with the fire time and runs the callback with the captured
arguments (lines 55-58), `clear` resets `timeoutID` (lines 62-64). -/
def fireOne {α : Type} (s : LimiterState α) (tm : ScheduledTimer α) :
    LimiterState α × List (Nat × α) :=
  let s1 := { s with timers := s.timers.filter (fun x => x.handle != tm.handle) }
  match tm.action with
  | TimerAction.execCb a => ({ s1 with lastExec := tm.fireTime }, [(tm.fireTime, a)])
  | TimerAction.clearFlag => ({ s1 with timeoutID := none }, [])

/-- The host fires every timer whose fire time has been reached. -/
def fireDue {α : Type} (s : LimiterState α) (now : Nat) :
    LimiterState α × List (Nat × α) :=
  (s.timers.filter (fun tm => decide (tm.fireTime ≤ now))).foldl
    (fun acc tm =>
      let r := fireOne acc.1 tm
      (r.1, acc.2 ++ r.2))
    (s, [])

/-- Process a sequence of wrapper invocations (time, arguments), the host
first firing any timer that has come due before each invocation.  Returns
the final state and all callback executions, in order. -/
def runCalls {α : Type} (cfg : ThrottleCfg) :
    LimiterState α → List (Nat × α) → LimiterState α × List (Nat × α)
  | s, [] => (s, [])
  | s, (t, a) :: rest =>
    let fd := fireDue s t
    let cs := callStep cfg fd.1 t a
    let r := runCalls cfg cs.1 rest
    (r.1, fd.2 ++ cs.2 ++ r.2)

/-- An externally visible event for a limiter instance: a wrapper invocation
or the passage of time letting due timers fire. -/
inductive LimEvent (α : Type) where
  | call : Nat → α → LimEvent α
  | tick : Nat → LimEvent α

/-- Run a sequence of events against a limiter instance. -/
def runEvents {α : Type} (cfg : ThrottleCfg) :
    LimiterState α → List (LimEvent α) → LimiterState α
  | s, [] => s
  | s, LimEvent.call t a :: es => runEvents cfg (callStep cfg (fireDue s t).1 t a).1 es
  | s, LimEvent.tick t :: es => runEvents cfg (fireDue s t).1 es

/-- Structural well-formedness of a limiter state: the queue holds at most
one timer, and a queued timer's handle is the one stored in `timeoutID`. -/
def limiterOk {α : Type} (s : LimiterState α) : Bool :=
  match s.timers with
  | [] => true
  | [tm] => decide (s.timeoutID = some tm.handle)
  | _ => false

/-- The observable part of the timer queue: fire times and actions. -/
def timerSpecs {α : Type} (s : LimiterState α) : List (Nat × TimerAction α) :=
  s.timers.map (fun tm => (tm.fireTime, tm.action))

/-! ### Part 2: the SignaturePad component (source lines 193-429) -/

/-- Errors a component operation can raise: a TypeError from dereferencing a
missing canvas or engine, or the explicit configuration Error thrown by the
onBegin/onEnd setters (source lines 398-399, 407-408). -/
inductive JsErr where
  | typeError : JsErr
  | configError : JsErr
deriving DecidableEq

/-- The signature_pad drawing engine, an opaque collaborator: its content as
a data-URL serialization, whether input capture is enabled, and the two
event callbacks. -/
structure Engine where
  content : String
  inputEnabled : Bool
  onBegin : JSVal
  onEnd : JSVal
deriving DecidableEq

/-- `toDataURL()`: serialize the engine content. -/
def Engine.toDataURL (e : Engine) : String := e.content

/-- `fromDataURL(data)`: restore engine content from a serialization. -/
def Engine.fromDataURL (e : Engine) (data : String) : Engine :=
  { e with content := data }

/-- `clear()`: empty the engine content. -/
def Engine.clearPad (e : Engine) : Engine :=
  { e with content := "" }

/-- `isEmpty()`: whether the engine holds no content. -/
def Engine.isEmpty (e : Engine) : Bool := e.content == ""

/-- `off()`: disable input capture. -/
def Engine.offPad (e : Engine) : Engine :=
  { e with inputEnabled := false }

/-- A freshly constructed engine (`new SigPad(canvas, options)`). -/
def freshEngine : Engine :=
  { content := "", inputEnabled := true, onBegin := JSVal.undef, onEnd := JSVal.undef }

/-- The canvas DOM element: backing-buffer dimensions, layout (offset)
dimensions, the scale factor applied to its 2d context, and whether
style.width has been set to 100 percent. -/
structure Canvas where
  width : Nat
  height : Nat
  offsetWidth : Nat
  offsetHeight : Nat
  ctxScale : Nat
  styleWidthFull : Bool
deriving DecidableEq

/-- The component props used by the rescaling and lifecycle logic. -/
structure Props where
  width : Option Nat
  height : Option Nat
  redrawOnResize : Bool
  debounceInterval : Nat
deriving DecidableEq

/-- The default props (source lines 426-429). -/
def defaultProps : Props :=
  { width := none, height := none, redrawOnResize := false, debounceInterval := 150 }

/-- Truthiness of a numeric prop, as tested by `!this.props.width`:
undefined and 0 are falsy. -/
def propTruthy : Option Nat → Bool
  | none => false
  | some n => n != 0

/-- The JS `a || b` fallback on a numeric prop: undefined or 0 falls back. -/
def jsOrNat : Option Nat → Nat → Nat
  | none, d => d
  | some n, d => if n = 0 then d else n

/-- Component state: the canvas ref (`this._canvas`), the engine
(`this._signaturePad`), the tracked dimensions (`this.state`), and whether
the window resize listener is currently registered. -/
structure CompState where
  canvas : Option Canvas
  signaturePad : Option Engine
  canvasWidth : Nat
  canvasHeight : Nat
  resizeListenerOn : Bool
deriving DecidableEq

/-- The component right after the constructor ran (source lines 196-205):
no canvas bound yet, no engine, tracked dimensions zero. -/
def initCompState : CompState :=
  { canvas := none, signaturePad := none, canvasWidth := 0, canvasHeight := 0,
    resizeListenerOn := false }

/-- Source line 285: `Math.max(window.devicePixelRatio || 1, 1)`. -/
def scaleFactor (dpr : Nat) : Nat := max dpr 1

/-- Source line 286: `(this.props.width || this._canvas.offsetWidth) * ratio`. -/
def targetWidth (props : Props) (dpr : Nat) (c : Canvas) : Nat :=
  jsOrNat props.width c.offsetWidth * scaleFactor dpr

/-- Source line 287: `(this.props.height || this._canvas.offsetHeight) * ratio`. -/
def targetHeight (props : Props) (dpr : Nat) (c : Canvas) : Nat :=
  jsOrNat props.height c.offsetHeight * scaleFactor dpr

/-- Source lines 301-307: the canvas after its buffer dimensions are set to
the targets (implicitly clearing the buffer) and its context rescaled. -/
def resizedCanvas (props : Props) (dpr : Nat) (c : Canvas) : Canvas :=
  { c with width := targetWidth props dpr c,
           height := targetHeight props dpr c,
           ctxScale := scaleFactor dpr }

/-- The body of `scaleCanvas` (source lines 284-314) once the canvas `c`
bound to `this._canvas` is in hand: compute the target dimensions, return
unchanged if they equal the tracked ones, otherwise optionally snapshot the
engine, resize the canvas buffer (resetting and rescaling its context), and
finally restore the snapshot or clear the engine. -/
def scaleCanvasCore (props : Props) (dpr : Nat) (s : CompState) (c : Canvas) :
    CompState :=
  let w := targetWidth props dpr c
  let h := targetHeight props dpr c
  if w = s.canvasWidth ∧ h = s.canvasHeight then s
  else
    let data : Option String :=
      if props.redrawOnResize && s.signaturePad.isSome then
        s.signaturePad.map Engine.toDataURL
      else none
    let s2 := { s with canvas := some (resizedCanvas props dpr c),
                       canvasWidth := w, canvasHeight := h }
    match s.signaturePad with
    | some e =>
      if props.redrawOnResize then
        { s2 with signaturePad := some (e.fromDataURL (data.getD "")) }
      else
        { s2 with signaturePad := some e.clearPad }
    | none => s2

/-- `scaleCanvas` as invoked on the component.  With no canvas bound the
dereferences of `this._canvas` are conditional: line 286 (resp. 287) reads
`offsetWidth` (resp. `offsetHeight`) only when the width (resp. height) prop
is falsy, and the unconditional dereference at line 301 is reached only past
the early return at line 294 — so with both dimension props truthy and the
computed targets equal to the tracked dimensions the call returns cleanly;
in every other no-canvas configuration it raises a TypeError. -/
def scaleCanvas (props : Props) (dpr : Nat) (s : CompState) :
    Except JsErr CompState :=
  match s.canvas with
  | none =>
    if propTruthy props.width && propTruthy props.height then
      if jsOrNat props.width 0 * scaleFactor dpr = s.canvasWidth ∧
          jsOrNat props.height 0 * scaleFactor dpr = s.canvasHeight then
        Except.ok s
      else Except.error JsErr.typeError
    else Except.error JsErr.typeError
  | some c => Except.ok (scaleCanvasCore props dpr s c)

/-- `componentDidMount` (source lines 209-222): everything is guarded on
`this._canvas`; with a canvas bound it sets style.width to 100 percent and
registers the resize listener unless both width and height props are
present, scales the canvas, and constructs the engine. -/
def componentDidMount (props : Props) (dpr : Nat) (s : CompState) : CompState :=
  match s.canvas with
  | none => s
  | some c =>
    let c1 := if !(propTruthy props.width && propTruthy props.height) then
                { c with styleWidthFull := true }
              else c
    let s1 := { s with canvas := some c1 }
    let s2 := scaleCanvasCore props dpr s1 c1
    let s3 := if !(propTruthy props.width && propTruthy props.height) then
                { s2 with resizeListenerOn := true }
              else s2
    { s3 with signaturePad := some freshEngine }

/-- `componentWillUnmount` (source lines 225-231): removes the resize
listener unless both width and height props are present, then calls
`this._signaturePad.off()` with no guard, raising a TypeError when no engine
was ever constructed. -/
def componentWillUnmount (props : Props) (s : CompState) :
    CompState × Option JsErr :=
  let s1 := if !(propTruthy props.width && propTruthy props.height) then
              { s with resizeListenerOn := false }
            else s
  match s1.signaturePad with
  | none => (s1, some JsErr.typeError)
  | some e => ({ s1 with signaturePad := some e.offPad }, none)

/-- The proxied `isEmpty` method (source lines 238-241): dereferences
`this._signaturePad` with no guard. -/
def isEmptyOp (s : CompState) : Except JsErr Bool :=
  match s.signaturePad with
  | none => Except.error JsErr.typeError
  | some e => Except.ok e.isEmpty

/-- The proxied `clear` method (source lines 243-246): dereferences
`this._signaturePad` with no guard. -/
def clearOp (s : CompState) : Except JsErr CompState :=
  match s.signaturePad with
  | none => Except.error JsErr.typeError
  | some e => Except.ok { s with signaturePad := some e.clearPad }

/-- The `onBegin` setter (source lines 396-403): a non-callable argument
raises the configuration Error before anything is assigned; a callable one
is forwarded to `this._signaturePad` (TypeError if no engine). -/
def setOnBegin (s : CompState) (v : JSVal) : CompState × Option JsErr :=
  if !(v.truthy && v.isFn) then (s, some JsErr.configError)
  else
    match s.signaturePad with
    | none => (s, some JsErr.typeError)
    | some e => ({ s with signaturePad := some { e with onBegin := v } }, none)

/-- The `onEnd` setter (source lines 405-412), same shape as `onBegin`. -/
def setOnEnd (s : CompState) (v : JSVal) : CompState × Option JsErr :=
  if !(v.truthy && v.isFn) then (s, some JsErr.configError)
  else
    match s.signaturePad with
    | none => (s, some JsErr.typeError)
    | some e => ({ s with signaturePad := some { e with onEnd := v } }, none)

/-! ### Helper lemmas about the rate limiter -/

theorem limiterOk_lastExec {α : Type} (s : LimiterState α) (x : Nat) :
    limiterOk { s with lastExec := x } = limiterOk s := rfl

theorem limiterOk_length {α : Type} (s : LimiterState α)
    (h : limiterOk s = true) : s.timers.length ≤ 1 := by
  unfold limiterOk at h
  match hm : s.timers with
  | [] => simp
  | [tm] => simp
  | tm1 :: tm2 :: rest => rw [hm] at h; exact absurd h (by simp)

theorem clearPending_of_ok {α : Type} (s : LimiterState α)
    (h : limiterOk s = true) : clearPending s = { s with timers := [] } := by
  obtain ⟨le, tid, tms, nh⟩ := s
  cases tid with
  | none =>
    cases tms with
    | nil => simp [clearPending]
    | cons tm rest =>
      cases rest with
      | nil => simp [limiterOk] at h
      | cons tm2 r2 => simp [limiterOk] at h
  | some h0 =>
    cases tms with
    | nil => simp [clearPending]
    | cons tm rest =>
      cases rest with
      | nil =>
        simp only [limiterOk, decide_eq_true_eq, Option.some.injEq] at h
        simp [clearPending, List.filter_cons, h]
      | cons tm2 r2 => simp [limiterOk] at h

theorem limiterOk_callStep {α : Type} (cfg : ThrottleCfg) (s : LimiterState α)
    (now : Nat) (args : α) (h : limiterOk s = true) :
    limiterOk (callStep cfg s now args).1 = true := by
  unfold callStep leadingExec
  by_cases hl : (cfg.debounceMode.truthy && s.timeoutID.isNone) = true
  · have hok : limiterOk { s with lastExec := now } = true := by
      rw [limiterOk_lastExec]; exact h
    have hc : clearPending { s with lastExec := now } =
        { s with lastExec := now, timers := [] } := clearPending_of_ok _ hok
    simp only [hl, if_true, hc]
    split
    · rfl
    · split
      · simp [scheduleTimer, limiterOk]
      · rfl
  · have hc : clearPending s = { s with timers := [] } := clearPending_of_ok _ h
    simp only [hl, if_false, Bool.false_eq_true, hc]
    split
    · rfl
    · split
      · simp [scheduleTimer, limiterOk]
      · rfl

theorem limiterOk_fireOne {α : Type} (s : LimiterState α) (tm : ScheduledTimer α) :
    (fireOne s tm).1.timers = s.timers.filter (fun x => x.handle != tm.handle) := by
  unfold fireOne
  match tm.action with
  | TimerAction.execCb a => rfl
  | TimerAction.clearFlag => rfl

theorem fireDue_of_not_due {α : Type} (s : LimiterState α) (now : Nat)
    (h : ∀ tm ∈ s.timers, now < tm.fireTime) : fireDue s now = (s, []) := by
  unfold fireDue
  have hfil : s.timers.filter (fun tm => decide (tm.fireTime ≤ now)) = [] := by
    rw [List.filter_eq_nil_iff]
    intro tm hmem
    simp only [decide_eq_true_eq, not_le]
    exact h tm hmem
  rw [hfil]
  rfl

theorem fireDue_single_exec {α : Type} (s : LimiterState α) (hnd ft now : Nat)
    (a : α) (hm : s.timers = [⟨hnd, ft, TimerAction.execCb a⟩])
    (hdue : ft ≤ now) :
    fireDue s now = ({ s with timers := [], lastExec := ft }, [(ft, a)]) := by
  unfold fireDue
  rw [hm]
  simp only [List.filter_cons, List.filter_nil, decide_eq_true_eq]
  rw [if_pos hdue]
  simp only [List.foldl]
  unfold fireOne
  simp [hm, List.filter_cons]

theorem limiterOk_fireDue {α : Type} (s : LimiterState α) (now : Nat)
    (h : limiterOk s = true) : limiterOk (fireDue s now).1 = true := by
  unfold limiterOk at h
  match hm : s.timers with
  | [] =>
    have : fireDue s now = (s, []) :=
      fireDue_of_not_due s now (by rw [hm]; intro tm htm; exact absurd htm (by simp))
    rw [this]
    exact (by unfold limiterOk; rw [hm])
  | [tm] =>
    by_cases hdue : tm.fireTime ≤ now
    · unfold fireDue
      rw [hm]
      simp only [List.filter_cons, List.filter_nil, decide_eq_true_eq]
      rw [if_pos hdue]
      simp only [List.foldl]
      unfold fireOne
      match tm.action with
      | TimerAction.execCb a => simp [hm, List.filter_cons, limiterOk]
      | TimerAction.clearFlag => simp [hm, List.filter_cons, limiterOk]
    · have : fireDue s now = (s, []) :=
        fireDue_of_not_due s now (by
          rw [hm]
          intro x hx
          simp only [List.mem_singleton] at hx
          subst hx
          omega)
      rw [this]
      unfold limiterOk
      rw [hm]
      rw [hm] at h
      exact h
  | tm1 :: tm2 :: rest => rw [hm] at h; exact absurd h (by simp)

/-- One wrapper invocation in trailing-debounce mode: never executes
synchronously; under the timer invariant it cancels the pending timer and
schedules the callback to fire exactly `d` later with the call's
arguments. -/
theorem callStep_trailing {α : Type} (d : Nat) (nt cb : JSVal)
    (hnt : nt ≠ JSVal.bool true) (s : LimiterState α) (now : Nat) (a : α)
    (h : limiterOk s = true) :
    callStep ⟨d, nt, cb, JSVal.bool false⟩ s now a =
      (⟨s.lastExec, some s.nextHandle,
        [⟨s.nextHandle, now + d, TimerAction.execCb a⟩], s.nextHandle + 1⟩, []) := by
  have hc : clearPending s = { s with timers := [] } := clearPending_of_ok _ h
  unfold callStep leadingExec
  simp only [JSVal.truthy, Bool.false_and, Bool.false_eq_true, if_false, hc]
  rw [if_neg (by simp), if_pos hnt]
  simp [scheduleTimer, JSVal.truthy]

/-- One wrapper invocation in throttle mode with the delay already elapsed:
the callback executes immediately, stamping `lastExec`, and any pending
timer is cancelled without scheduling a new one. -/
theorem callStep_throttle_exec {α : Type} (d : Nat) (nt cb : JSVal)
    (s : LimiterState α) (now : Nat) (a : α)
    (hgt : now - s.lastExec > d) (h : limiterOk s = true) :
    callStep ⟨d, nt, cb, JSVal.undef⟩ s now a =
      (⟨now, s.timeoutID, [], s.nextHandle⟩, [(now, a)]) := by
  have hc : clearPending s = { s with timers := [] } := clearPending_of_ok _ h
  unfold callStep leadingExec
  simp only [JSVal.truthy, Bool.false_and, Bool.false_eq_true, if_false, hc, true_and]
  rw [if_pos hgt]
  simp

/-- One wrapper invocation in throttle mode within the delay window (with
the trailing execution not suppressed): no synchronous execution; the
pending timer is cancelled and the callback is rescheduled for
`now + (delay - elapsed)` with the call's arguments. -/
theorem callStep_throttle_defer {α : Type} (d : Nat) (nt cb : JSVal)
    (hnt : nt ≠ JSVal.bool true) (s : LimiterState α) (now : Nat) (a : α)
    (hle : now - s.lastExec ≤ d) (h : limiterOk s = true) :
    callStep ⟨d, nt, cb, JSVal.undef⟩ s now a =
      (⟨s.lastExec, some s.nextHandle,
        [⟨s.nextHandle, now + (d - (now - s.lastExec)), TimerAction.execCb a⟩],
        s.nextHandle + 1⟩, []) := by
  have hc : clearPending s = { s with timers := [] } := clearPending_of_ok _ h
  unfold callStep leadingExec
  simp only [JSVal.truthy, Bool.false_and, Bool.false_eq_true, if_false, hc, true_and]
  rw [if_neg (by omega), if_pos hnt]
  simp [scheduleTimer, JSVal.truthy]

/-- One wrapper invocation in throttle mode within the delay window with
`noTrailing = true`: the call is dropped, no timer is scheduled. -/
theorem callStep_throttle_noTrail {α : Type} (d : Nat) (cb : JSVal)
    (s : LimiterState α) (now : Nat) (a : α)
    (hle : now - s.lastExec ≤ d) (h : limiterOk s = true) :
    callStep ⟨d, JSVal.bool true, cb, JSVal.undef⟩ s now a =
      ({ s with timers := [] }, []) := by
  have hc : clearPending s = { s with timers := [] } := clearPending_of_ok _ h
  unfold callStep leadingExec
  simp only [JSVal.truthy, Bool.false_and, Bool.false_eq_true, if_false, hc, true_and]
  rw [if_neg (by omega), if_neg (by simp)]

theorem runCalls_nil {α : Type} (cfg : ThrottleCfg) (s : LimiterState α) :
    runCalls cfg s [] = (s, []) := rfl

theorem runCalls_cons {α : Type} (cfg : ThrottleCfg) (s : LimiterState α)
    (t : Nat) (a : α) (rest : List (Nat × α)) :
    runCalls cfg s ((t, a) :: rest) =
      ((runCalls cfg (callStep cfg (fireDue s t).1 t a).1 rest).1,
       (fireDue s t).2 ++ (callStep cfg (fireDue s t).1 t a).2 ++
         (runCalls cfg (callStep cfg (fireDue s t).1 t a).1 rest).2) := rfl

/-- In trailing-debounce mode no invocation ever executes the callback
synchronously, whatever the state. -/
theorem callStep_trailing_out {α : Type} (d : Nat) (nt cb : JSVal)
    (s : LimiterState α) (now : Nat) (a : α) :
    (callStep ⟨d, nt, cb, JSVal.bool false⟩ s now a).2 = [] := by
  unfold callStep leadingExec
  simp only [JSVal.truthy, Bool.false_and, Bool.false_eq_true, if_false]
  rw [if_neg (by simp)]
  split <;> rfl

/-- A burst of calls to a trailing-debounce wrapper (successive gaps shorter
than the delay, so no timer fires mid-burst): no synchronous executions, no
timer executions, and afterwards a single pending exec-timer set to fire
`d` after the last call, carrying the last call's arguments. -/
theorem runCalls_trailing_burst {α : Type} (d : Nat) (nt cb : JSVal)
    (hnt : nt ≠ JSVal.bool true) :
    ∀ (calls : List (Nat × α)) (t : Nat) (a : α) (s : LimiterState α),
      limiterOk s = true →
      (∀ tm ∈ s.timers, t < tm.fireTime) →
      List.Chain' (fun p q : Nat × α => q.1 < p.1 + d) ((t, a) :: calls) →
      (runCalls ⟨d, nt, cb, JSVal.bool false⟩ s ((t, a) :: calls)).2 = [] ∧
      ∃ hnd : Nat,
        (runCalls ⟨d, nt, cb, JSVal.bool false⟩ s ((t, a) :: calls)).1.timers =
          [⟨hnd, (((t, a) :: calls).getLast (by simp)).1 + d,
            TimerAction.execCb (((t, a) :: calls).getLast (by simp)).2⟩] := by
  intro calls
  induction calls with
  | nil =>
    intro t a s hok hnd _
    have hfd : fireDue s t = (s, []) := fireDue_of_not_due s t hnd
    have hcs := callStep_trailing d nt cb hnt s t a hok
    rw [runCalls_cons]
    simp only [hfd, hcs, runCalls_nil]
    exact ⟨rfl, s.nextHandle, rfl⟩
  | cons hd rest ih =>
    intro t a s hok hnd hchain
    obtain ⟨t2, a2⟩ := hd
    have hfd : fireDue s t = (s, []) := fireDue_of_not_due s t hnd
    have hcs := callStep_trailing d nt cb hnt s t a hok
    have hchain2 : List.Chain' (fun p q : Nat × α => q.1 < p.1 + d)
        ((t2, a2) :: rest) := hchain.tail
    have hlt : t2 < t + d := by
      have := List.chain'_cons.mp hchain
      exact this.1
    have hok2 : limiterOk
        (⟨s.lastExec, some s.nextHandle,
          [⟨s.nextHandle, t + d, TimerAction.execCb a⟩], s.nextHandle + 1⟩ :
            LimiterState α) = true := by
      simp [limiterOk]
    have hnd2 : ∀ tm ∈ (⟨s.lastExec, some s.nextHandle,
        [⟨s.nextHandle, t + d, TimerAction.execCb a⟩], s.nextHandle + 1⟩ :
          LimiterState α).timers, t2 < tm.fireTime := by
      intro tm htm
      simp only [List.mem_singleton] at htm
      subst htm
      exact hlt
    have hrec := ih t2 a2 _ hok2 hnd2 hchain2
    rw [runCalls_cons]
    simp only [hfd, hcs]
    refine ⟨?_, ?_⟩
    · simp [hrec.1]
    · obtain ⟨hnd3, hh⟩ := hrec.2
      refine ⟨hnd3, ?_⟩
      rw [List.getLast_cons_cons]
      exact hh

/-- The timer invariant is preserved by every event, in every mode. -/
theorem limiterOk_runEvents {α : Type} (cfg : ThrottleCfg)
    (evs : List (LimEvent α)) :
    ∀ s : LimiterState α, limiterOk s = true →
      limiterOk (runEvents cfg s evs) = true := by
  induction evs with
  | nil => intro s h; exact h
  | cons e rest ih =>
    intro s h
    cases e with
    | call t a =>
      exact ih _ (limiterOk_callStep cfg _ t a (limiterOk_fireDue s t h))
    | tick t =>
      exact ih _ (limiterOk_fireDue s t h)

/-! ### Claims C1-C4: the rate limiter -/

/-- Claim C1, counterexample.  In throttle mode (debounceMode undefined)
with noTrailing = true: after an immediate execution at time 200, the call
at time 250 lies within the 100 ms delay window of the last execution, yet
no pending timer is scheduled at all (the call is simply dropped), refuting
the claim that every within-window call schedules a single pending timer
firing at lastExecutionTimestamp + delayMs. -/
theorem c1_counterexample :
    (throttle 100 (JSVal.bool true) (JSVal.fn 0) JSVal.undef).debounceMode =
        JSVal.undef ∧
    (callStep (throttle 100 (JSVal.bool true) (JSVal.fn 0) JSVal.undef)
        (initLimiter (α := Nat)) 200 7).1.lastExec = 200 ∧
    250 - (callStep (throttle 100 (JSVal.bool true) (JSVal.fn 0) JSVal.undef)
        (initLimiter (α := Nat)) 200 7).1.lastExec ≤
      (throttle 100 (JSVal.bool true) (JSVal.fn 0) JSVal.undef).delay ∧
    (callStep (throttle 100 (JSVal.bool true) (JSVal.fn 0) JSVal.undef)
        (callStep (throttle 100 (JSVal.bool true) (JSVal.fn 0) JSVal.undef)
          (initLimiter (α := Nat)) 200 7).1 250 8).1.timers = [] := by
  decide

/-- Claim C1 as amended: in throttle mode (debounceMode undefined), a call
strictly more than delayMs after the last execution runs the callback
immediately; a call within delayMs schedules (replacing any pending timer)
a single timer firing at lastExecutionTimestamp + delayMs with the latest
call's arguments, unless noTrailing is true, in which case the call is
dropped and no timer is scheduled. -/
theorem c1_throttle_amended {α : Type} (cfg : ThrottleCfg) (s : LimiterState α)
    (now : Nat) (a : α) (hdm : cfg.debounceMode = JSVal.undef)
    (hok : limiterOk s = true) (hmono : s.lastExec ≤ now) :
    (now - s.lastExec > cfg.delay →
      (callStep cfg s now a).2 = [(now, a)] ∧
      (callStep cfg s now a).1.lastExec = now ∧
      (callStep cfg s now a).1.timers = []) ∧
    (now - s.lastExec ≤ cfg.delay → cfg.noTrailing ≠ JSVal.bool true →
      (callStep cfg s now a).2 = [] ∧
      timerSpecs (callStep cfg s now a).1 =
        [(s.lastExec + cfg.delay, TimerAction.execCb a)]) ∧
    (now - s.lastExec ≤ cfg.delay → cfg.noTrailing = JSVal.bool true →
      (callStep cfg s now a).2 = [] ∧
      (callStep cfg s now a).1.timers = []) := by
  obtain ⟨d, nt, cb, dm⟩ := cfg
  dsimp only at hdm hmono ⊢
  subst hdm
  refine ⟨?_, ?_, ?_⟩
  · intro hgt
    rw [callStep_throttle_exec d nt cb s now a hgt hok]
    exact ⟨rfl, rfl, rfl⟩
  · intro hle hnt
    rw [callStep_throttle_defer d nt cb hnt s now a hle hok]
    refine ⟨rfl, ?_⟩
    have harith : now + (d - (now - s.lastExec)) = s.lastExec + d := by omega
    simp [timerSpecs, harith]
  · intro hle hnt
    subst hnt
    rw [callStep_throttle_noTrail d cb s now a hle hok]
    exact ⟨rfl, rfl⟩

theorem c1_throttle_amended_witness :
    (50 - (initLimiter (α := Nat)).lastExec ≤
        (throttle 100 (JSVal.fn 0) JSVal.undef JSVal.undef).delay) ∧
    (callStep (throttle 100 (JSVal.fn 0) JSVal.undef JSVal.undef)
        (initLimiter (α := Nat)) 50 3).2 = [] ∧
    timerSpecs (callStep (throttle 100 (JSVal.fn 0) JSVal.undef JSVal.undef)
        (initLimiter (α := Nat)) 50 3).1 =
      [((initLimiter (α := Nat)).lastExec +
          (throttle 100 (JSVal.fn 0) JSVal.undef JSVal.undef).delay,
        TimerAction.execCb 3)] := by
  have h := c1_throttle_amended (throttle 100 (JSVal.fn 0) JSVal.undef JSVal.undef)
    (initLimiter (α := Nat)) 50 3 (by decide) (by decide) (by decide)
  exact ⟨by decide, h.2.1 (by decide) (by decide)⟩

/-- Claim C2: the two-argument debounce form used by the component yields
trailing-debounce mode (debounceMode false); in that mode no invocation ever
runs the callback synchronously; each invocation cancels any pending timer
and schedules a single timer to fire delayMs later with that call's
arguments; and a burst of calls with gaps shorter than delayMs produces
exactly one execution, with the last call's arguments, delayMs after the
last call. -/
theorem c2_trailing_debounce {α : Type} (d f t : Nat) (a : α)
    (calls : List (Nat × α))
    (hchain : List.Chain' (fun p q : Nat × α => q.1 < p.1 + d)
      ((t, a) :: calls)) :
    debounce d (JSVal.fn f) JSVal.undef =
      (⟨d, JSVal.undef, JSVal.fn f, JSVal.bool false⟩ : ThrottleCfg) ∧
    (∀ (s : LimiterState α) (u : Nat) (b : α),
      (callStep (debounce d (JSVal.fn f) JSVal.undef) s u b).2 = []) ∧
    (∀ (s : LimiterState α) (u : Nat) (b : α), limiterOk s = true →
      timerSpecs (callStep (debounce d (JSVal.fn f) JSVal.undef) s u b).1 =
        [(u + d, TimerAction.execCb b)]) ∧
    (runCalls (debounce d (JSVal.fn f) JSVal.undef) (initLimiter (α := α))
        ((t, a) :: calls)).2 = [] ∧
    (fireDue (runCalls (debounce d (JSVal.fn f) JSVal.undef)
        (initLimiter (α := α)) ((t, a) :: calls)).1
      ((((t, a) :: calls).getLast (by simp)).1 + d)).2 =
      [((((t, a) :: calls).getLast (by simp)).1 + d,
        (((t, a) :: calls).getLast (by simp)).2)] := by
  have hcfg : debounce d (JSVal.fn f) JSVal.undef =
      (⟨d, JSVal.undef, JSVal.fn f, JSVal.bool false⟩ : ThrottleCfg) := rfl
  have hburst := runCalls_trailing_burst d JSVal.undef (JSVal.fn f)
    (by decide) calls t a (initLimiter (α := α)) rfl
    (by intro tm htm; exact absurd htm (by simp [initLimiter])) hchain
  refine ⟨hcfg, ?_, ?_, ?_, ?_⟩
  · intro s u b
    rw [hcfg]
    exact callStep_trailing_out d JSVal.undef (JSVal.fn f) s u b
  · intro s u b hok
    rw [hcfg, callStep_trailing d JSVal.undef (JSVal.fn f) (by decide) s u b hok]
    simp [timerSpecs]
  · rw [hcfg]
    exact hburst.1
  · obtain ⟨hnd, ht⟩ := hburst.2
    rw [hcfg]
    rw [fireDue_single_exec _ hnd _ _ _ ht (le_refl _)]

theorem c2_trailing_debounce_witness :
    List.Chain' (fun p q : Nat × Nat => q.1 < p.1 + 100)
      [(0, 1), (30, 2), (60, 3)] ∧
    (runCalls (debounce 100 (JSVal.fn 0) JSVal.undef) (initLimiter (α := Nat))
      [(0, 1), (30, 2), (60, 3)]).2 = [] ∧
    (fireDue (runCalls (debounce 100 (JSVal.fn 0) JSVal.undef)
      (initLimiter (α := Nat)) [(0, 1), (30, 2), (60, 3)]).1 160).2 =
      [(160, 3)] := by
  have h := c2_trailing_debounce 100 0 0 (1 : Nat) [(30, 2), (60, 3)]
    (by simp [List.chain'_cons])
  exact ⟨by simp [List.chain'_cons], h.2.2.2.1, h.2.2.2.2⟩

/-- Claim C3: for every mode and every sequence of events from a fresh
limiter, the timer queue never holds more than one pending timer: each
invocation clears the existing pending timer (via the timeoutID handle)
before possibly scheduling a new one. -/
theorem c3_single_pending_timer {α : Type} (cfg : ThrottleCfg)
    (evs : List (LimEvent α)) :
    limiterOk (runEvents cfg (initLimiter (α := α)) evs) = true ∧
    (runEvents cfg (initLimiter (α := α)) evs).timers.length ≤ 1 := by
  have h := limiterOk_runEvents cfg evs (initLimiter (α := α)) rfl
  exact ⟨h, limiterOk_length _ h⟩

/-- Claim C4: when the value in the noTrailing argument position is a
function, the arguments shift — debounceMode receives the callback-position
value, callback receives the noTrailing-position value, noTrailing becomes
undefined — so the 2-argument debounce form, the 3-argument debounce forms
and the shifted throttle form all produce the configuration of the selected
mode. -/
theorem c4_argument_shift (d f : Nat) (cb dm : JSVal) :
    throttle d (JSVal.fn f) cb dm =
      (⟨d, JSVal.undef, JSVal.fn f, cb⟩ : ThrottleCfg) ∧
    debounce d (JSVal.fn f) JSVal.undef =
      (⟨d, JSVal.undef, JSVal.fn f, JSVal.bool false⟩ : ThrottleCfg) ∧
    debounce d (JSVal.bool false) (JSVal.fn f) =
      (⟨d, JSVal.undef, JSVal.fn f, JSVal.bool false⟩ : ThrottleCfg) ∧
    debounce d (JSVal.bool true) (JSVal.fn f) =
      (⟨d, JSVal.undef, JSVal.fn f, JSVal.bool true⟩ : ThrottleCfg) := by
  exact ⟨rfl, rfl, rfl, rfl⟩

/-! ### Helper lemmas about the component -/

theorem targetWidth_resized (props : Props) (dpr : Nat) (c : Canvas) :
    targetWidth props dpr (resizedCanvas props dpr c) = targetWidth props dpr c := rfl

theorem targetHeight_resized (props : Props) (dpr : Nat) (c : Canvas) :
    targetHeight props dpr (resizedCanvas props dpr c) = targetHeight props dpr c := rfl

theorem scaleCanvasCore_eq_self (props : Props) (dpr : Nat) (s : CompState)
    (c : Canvas) (hw : targetWidth props dpr c = s.canvasWidth)
    (hh : targetHeight props dpr c = s.canvasHeight) :
    scaleCanvasCore props dpr s c = s := by
  unfold scaleCanvasCore
  rw [if_pos ⟨hw, hh⟩]

theorem scaleCanvasCore_dims (props : Props) (dpr : Nat) (s : CompState)
    (c : Canvas) (hch : ¬(targetWidth props dpr c = s.canvasWidth ∧
      targetHeight props dpr c = s.canvasHeight)) :
    (scaleCanvasCore props dpr s c).canvasWidth = targetWidth props dpr c ∧
    (scaleCanvasCore props dpr s c).canvasHeight = targetHeight props dpr c ∧
    (scaleCanvasCore props dpr s c).canvas = some (resizedCanvas props dpr c) := by
  unfold scaleCanvasCore
  rw [if_neg hch]
  cases hsp : s.signaturePad with
  | none => exact ⟨rfl, rfl, rfl⟩
  | some e =>
    cases hrd : props.redrawOnResize <;> simp

theorem scaleCanvasCore_listener (props : Props) (dpr : Nat) (s : CompState)
    (c : Canvas) :
    (scaleCanvasCore props dpr s c).resizeListenerOn = s.resizeListenerOn := by
  by_cases hdim : targetWidth props dpr c = s.canvasWidth ∧
      targetHeight props dpr c = s.canvasHeight
  · rw [scaleCanvasCore_eq_self props dpr s c hdim.1 hdim.2]
  · unfold scaleCanvasCore
    rw [if_neg hdim]
    cases hsp : s.signaturePad with
    | none => rfl
    | some e => cases hrd : props.redrawOnResize <;> simp

theorem scaleCanvasCore_pad_redraw (props : Props) (dpr : Nat) (s : CompState)
    (c : Canvas) (e : Engine) (hch : ¬(targetWidth props dpr c = s.canvasWidth ∧
      targetHeight props dpr c = s.canvasHeight))
    (hsp : s.signaturePad = some e) (hrd : props.redrawOnResize = true) :
    (scaleCanvasCore props dpr s c).signaturePad = some e := by
  unfold scaleCanvasCore
  rw [if_neg hch]
  rw [hsp]
  simp [hrd, Engine.fromDataURL, Engine.toDataURL]

theorem scaleCanvasCore_pad_clear (props : Props) (dpr : Nat) (s : CompState)
    (c : Canvas) (e : Engine) (hch : ¬(targetWidth props dpr c = s.canvasWidth ∧
      targetHeight props dpr c = s.canvasHeight))
    (hsp : s.signaturePad = some e) (hrd : props.redrawOnResize = false) :
    (scaleCanvasCore props dpr s c).signaturePad = some e.clearPad := by
  unfold scaleCanvasCore
  rw [if_neg hch]
  rw [hsp]
  simp [hrd]

theorem scaleCanvasCore_pad_none (props : Props) (dpr : Nat) (s : CompState)
    (c : Canvas) (hsp : s.signaturePad = none) :
    (scaleCanvasCore props dpr s c).signaturePad = none := by
  by_cases hdim : targetWidth props dpr c = s.canvasWidth ∧
      targetHeight props dpr c = s.canvasHeight
  · rw [scaleCanvasCore_eq_self props dpr s c hdim.1 hdim.2]
    exact hsp
  · unfold scaleCanvasCore
    rw [if_neg hdim]
    rw [hsp]

theorem scaleCanvas_of_canvas (props : Props) (dpr : Nat) (s : CompState)
    (c : Canvas) (hc : s.canvas = some c) :
    scaleCanvas props dpr s = Except.ok (scaleCanvasCore props dpr s c) := by
  unfold scaleCanvas
  rw [hc]

/-! ### Claims C5-C10: the component -/

/-- Claim C5: on a dimension-changing rescale, with redrawOnResize and an
engine attached the engine content is snapshotted and restored, so it is
preserved; without redrawOnResize the attached engine is explicitly
cleared (and then reports empty); with no engine attached the rescale
succeeds with snapshot, restore and clear all skipped. -/
theorem c5_preserve_clear_skip (props : Props) (dpr : Nat) (s : CompState)
    (c : Canvas) (hc : s.canvas = some c)
    (hch : ¬(targetWidth props dpr c = s.canvasWidth ∧
      targetHeight props dpr c = s.canvasHeight)) :
    (∀ e : Engine, s.signaturePad = some e → props.redrawOnResize = true →
      ∃ s' : CompState, scaleCanvas props dpr s = Except.ok s' ∧
        s'.signaturePad = some e ∧
        s'.canvasWidth = targetWidth props dpr c ∧
        s'.canvasHeight = targetHeight props dpr c) ∧
    (∀ e : Engine, s.signaturePad = some e → props.redrawOnResize = false →
      ∃ s' : CompState, scaleCanvas props dpr s = Except.ok s' ∧
        s'.signaturePad = some e.clearPad ∧ e.clearPad.isEmpty = true ∧
        s'.canvasWidth = targetWidth props dpr c ∧
        s'.canvasHeight = targetHeight props dpr c) ∧
    (s.signaturePad = none →
      ∃ s' : CompState, scaleCanvas props dpr s = Except.ok s' ∧
        s'.signaturePad = none ∧
        s'.canvasWidth = targetWidth props dpr c ∧
        s'.canvasHeight = targetHeight props dpr c) := by
  obtain ⟨hw, hh, _⟩ := scaleCanvasCore_dims props dpr s c hch
  refine ⟨?_, ?_, ?_⟩
  · intro e hsp hrd
    exact ⟨scaleCanvasCore props dpr s c, scaleCanvas_of_canvas props dpr s c hc,
      scaleCanvasCore_pad_redraw props dpr s c e hch hsp hrd, hw, hh⟩
  · intro e hsp hrd
    refine ⟨scaleCanvasCore props dpr s c, scaleCanvas_of_canvas props dpr s c hc,
      scaleCanvasCore_pad_clear props dpr s c e hch hsp hrd, ?_, hw, hh⟩
    simp [Engine.clearPad, Engine.isEmpty]
  · intro hsp
    exact ⟨scaleCanvasCore props dpr s c, scaleCanvas_of_canvas props dpr s c hc,
      scaleCanvasCore_pad_none props dpr s c hsp, hw, hh⟩

theorem c5_preserve_clear_skip_witness :
    ((⟨some ⟨300, 150, 300, 150, 1, false⟩, some ⟨"sig", true, JSVal.undef,
        JSVal.undef⟩, 300, 150, false⟩ : CompState).canvas =
      some ⟨300, 150, 300, 150, 1, false⟩) ∧
    (∃ s' : CompState,
      scaleCanvas ⟨none, none, true, 150⟩ 2
        (⟨some ⟨300, 150, 300, 150, 1, false⟩, some ⟨"sig", true, JSVal.undef,
          JSVal.undef⟩, 300, 150, false⟩ : CompState) = Except.ok s' ∧
      s'.signaturePad = some ⟨"sig", true, JSVal.undef, JSVal.undef⟩ ∧
      s'.canvasWidth = 600 ∧ s'.canvasHeight = 300) := by
  have h := c5_preserve_clear_skip ⟨none, none, true, 150⟩ 2
    (⟨some ⟨300, 150, 300, 150, 1, false⟩, some ⟨"sig", true, JSVal.undef,
      JSVal.undef⟩, 300, 150, false⟩ : CompState)
    ⟨300, 150, 300, 150, 1, false⟩ rfl (by decide)
  exact ⟨rfl, h.1 ⟨"sig", true, JSVal.undef, JSVal.undef⟩ rfl rfl⟩

/-- Claim C6: rescaling is a no-op when the computed target dimensions equal
the tracked ones, and a successful rescale followed by another rescale with
the same props and device pixel ratio leaves the state unchanged (exactly
one dimension-changing side effect). -/
theorem c6_rescale_idempotent (props : Props) (dpr : Nat) (s : CompState)
    (c : Canvas) (hc : s.canvas = some c) :
    (targetWidth props dpr c = s.canvasWidth ∧
        targetHeight props dpr c = s.canvasHeight →
      scaleCanvas props dpr s = Except.ok s) ∧
    (∀ s' : CompState, scaleCanvas props dpr s = Except.ok s' →
      scaleCanvas props dpr s' = Except.ok s') := by
  constructor
  · intro heq
    rw [scaleCanvas_of_canvas props dpr s c hc,
      scaleCanvasCore_eq_self props dpr s c heq.1 heq.2]
  · intro s' h
    rw [scaleCanvas_of_canvas props dpr s c hc] at h
    injection h with hcore
    by_cases hdim : targetWidth props dpr c = s.canvasWidth ∧
        targetHeight props dpr c = s.canvasHeight
    · have hself : scaleCanvasCore props dpr s c = s :=
        scaleCanvasCore_eq_self props dpr s c hdim.1 hdim.2
      have hss : s' = s := by rw [← hcore, hself]
      subst hss
      rw [scaleCanvas_of_canvas props dpr s' c hc, hself]
    · obtain ⟨hw, hh, hcv⟩ := scaleCanvasCore_dims props dpr s c hdim
      rw [hcore] at hw hh hcv
      rw [scaleCanvas_of_canvas props dpr s' (resizedCanvas props dpr c) hcv]
      rw [scaleCanvasCore_eq_self props dpr s' (resizedCanvas props dpr c)
        (by rw [targetWidth_resized, hw]) (by rw [targetHeight_resized, hh])]

theorem c6_rescale_idempotent_witness :
    ((⟨some ⟨0, 0, 300, 150, 1, false⟩, none, 300, 150, false⟩ :
        CompState).canvas = some ⟨0, 0, 300, 150, 1, false⟩) ∧
    targetWidth defaultProps 1 ⟨0, 0, 300, 150, 1, false⟩ = 300 ∧
    scaleCanvas defaultProps 1
      (⟨some ⟨0, 0, 300, 150, 1, false⟩, none, 300, 150, false⟩ : CompState) =
      Except.ok
        (⟨some ⟨0, 0, 300, 150, 1, false⟩, none, 300, 150, false⟩ : CompState) := by
  have h := c6_rescale_idempotent defaultProps 1
    (⟨some ⟨0, 0, 300, 150, 1, false⟩, none, 300, 150, false⟩ : CompState)
    ⟨0, 0, 300, 150, 1, false⟩ rfl
  exact ⟨rfl, rfl, h.1 (by decide)⟩

/-- Claim C7, counterexample.  On the freshly constructed component (no
canvas bound, no engine), the proxied isEmpty method, scaleCanvas, and
componentWillUnmount all raise a TypeError rather than being silently
skipped: their engine/canvas dereferences are unguarded, so the claim that
every public operation is guarded on the canvas reference fails. -/
theorem c7_counterexample :
    initCompState.canvas = none ∧ initCompState.signaturePad = none ∧
    isEmptyOp initCompState = Except.error JsErr.typeError ∧
    scaleCanvas defaultProps 1 initCompState = Except.error JsErr.typeError ∧
    (componentWillUnmount defaultProps initCompState).2 =
      some JsErr.typeError := by
  exact ⟨rfl, rfl, rfl, rfl, rfl⟩

/-- Claim C7 as amended: only the mount-time initialization is guarded on
the canvas reference — componentDidMount invoked before the canvas exists
raises no error and is a no-op — while the proxied engine methods and
componentWillUnmount dereference the engine unguarded and raise a TypeError
when invoked before it exists; scaleCanvas invoked before the canvas exists
raises a TypeError except in the single configuration where both dimension
props are truthy and the computed targets already equal the tracked
dimensions, in which case the early return fires before any canvas
dereference and no error is raised. -/
theorem c7_guard_amended (props : Props) (dpr : Nat) (s : CompState)
    (hcanvas : s.canvas = none) (hpad : s.signaturePad = none) :
    componentDidMount props dpr s = s ∧
    isEmptyOp s = Except.error JsErr.typeError ∧
    clearOp s = Except.error JsErr.typeError ∧
    ((propTruthy props.width && propTruthy props.height) = false →
      scaleCanvas props dpr s = Except.error JsErr.typeError) ∧
    ((propTruthy props.width && propTruthy props.height) = true →
      ¬(jsOrNat props.width 0 * scaleFactor dpr = s.canvasWidth ∧
        jsOrNat props.height 0 * scaleFactor dpr = s.canvasHeight) →
      scaleCanvas props dpr s = Except.error JsErr.typeError) ∧
    ((propTruthy props.width && propTruthy props.height) = true →
      (jsOrNat props.width 0 * scaleFactor dpr = s.canvasWidth ∧
        jsOrNat props.height 0 * scaleFactor dpr = s.canvasHeight) →
      scaleCanvas props dpr s = Except.ok s) ∧
    (componentWillUnmount props s).2 = some JsErr.typeError := by
  refine ⟨?_, ?_, ?_, ?_, ?_, ?_, ?_⟩
  · unfold componentDidMount
    rw [hcanvas]
  · unfold isEmptyOp
    rw [hpad]
  · unfold clearOp
    rw [hpad]
  · intro hwh
    unfold scaleCanvas
    rw [hcanvas]
    simp [hwh]
  · intro hwh hne
    unfold scaleCanvas
    rw [hcanvas]
    simp only [hwh, if_true]
    rw [if_neg hne]
  · intro hwh hdim
    unfold scaleCanvas
    rw [hcanvas]
    simp only [hwh, if_true]
    rw [if_pos hdim]
  · unfold componentWillUnmount
    cases hwh : (propTruthy props.width && propTruthy props.height) <;>
      simp [hwh, hpad]

theorem c7_guard_amended_witness :
    initCompState.canvas = none ∧ initCompState.signaturePad = none ∧
    componentDidMount defaultProps 1 initCompState = initCompState ∧
    clearOp initCompState = Except.error JsErr.typeError ∧
    scaleCanvas defaultProps 1 initCompState = Except.error JsErr.typeError ∧
    scaleCanvas (⟨some 200, some 100, false, 150⟩ : Props) 1
      (⟨none, none, 200, 100, false⟩ : CompState) =
      Except.ok (⟨none, none, 200, 100, false⟩ : CompState) := by
  have h1 := c7_guard_amended defaultProps 1 initCompState rfl rfl
  have h2 := c7_guard_amended (⟨some 200, some 100, false, 150⟩ : Props) 1
    (⟨none, none, 200, 100, false⟩ : CompState) rfl rfl
  exact ⟨rfl, rfl, h1.1, h1.2.2.1, h1.2.2.2.1 (by decide),
    h2.2.2.2.2.2.1 (by decide) (by decide)⟩

/-- Claim C8: with a canvas bound, componentDidMount registers the window
resize listener, and componentWillUnmount removes it, exactly when it is
not the case that both the width and the height props are present — so
providing both explicit dimensions (and only that) disables automatic
resize listening. -/
theorem c8_resize_listener (props : Props) (dpr : Nat) (s s2 : CompState)
    (c : Canvas) (hc : s.canvas = some c) (hl : s.resizeListenerOn = false) :
    (componentDidMount props dpr s).resizeListenerOn =
      !(propTruthy props.width && propTruthy props.height) ∧
    (componentWillUnmount props s2).1.resizeListenerOn =
      ((propTruthy props.width && propTruthy props.height) &&
        s2.resizeListenerOn) := by
  constructor
  · unfold componentDidMount
    rw [hc]
    cases hwh : (propTruthy props.width && propTruthy props.height) with
    | true =>
      simp only [hwh, Bool.not_true, Bool.false_eq_true, if_false]
      rw [scaleCanvasCore_listener]
      exact hl
    | false =>
      simp only [hwh, Bool.not_false, if_true]
  · unfold componentWillUnmount
    cases hwh : (propTruthy props.width && propTruthy props.height) with
    | true =>
      cases hsp : s2.signaturePad <;> simp [hwh, hsp]
    | false =>
      cases hsp : s2.signaturePad <;> simp [hwh, hsp]

theorem c8_resize_listener_witness :
    ((⟨some ⟨0, 0, 300, 150, 1, false⟩, none, 0, 0, false⟩ :
        CompState).canvas = some ⟨0, 0, 300, 150, 1, false⟩) ∧
    (componentDidMount defaultProps 1
      (⟨some ⟨0, 0, 300, 150, 1, false⟩, none, 0, 0, false⟩ :
        CompState)).resizeListenerOn = true ∧
    (componentWillUnmount (⟨some 200, some 100, false, 150⟩ : Props)
      (⟨some ⟨0, 0, 300, 150, 1, false⟩, none, 0, 0, true⟩ :
        CompState)).1.resizeListenerOn = true := by
  have h1 := c8_resize_listener defaultProps 1
    (⟨some ⟨0, 0, 300, 150, 1, false⟩, none, 0, 0, false⟩ : CompState)
    (⟨some ⟨0, 0, 300, 150, 1, false⟩, none, 0, 0, false⟩ : CompState)
    ⟨0, 0, 300, 150, 1, false⟩ rfl rfl
  have h2 := c8_resize_listener (⟨some 200, some 100, false, 150⟩ : Props) 1
    (⟨some ⟨0, 0, 300, 150, 1, false⟩, none, 0, 0, false⟩ : CompState)
    (⟨some ⟨0, 0, 300, 150, 1, false⟩, none, 0, 0, true⟩ : CompState)
    ⟨0, 0, 300, 150, 1, false⟩ rfl rfl
  exact ⟨rfl, h1.1, h2.2⟩

/-- Claim C9: assigning a non-callable value through the onBegin or onEnd
setter raises the configuration error synchronously and immediately;
assigning a callable value (with the engine attached) forwards it to the
drawing engine's corresponding property without error. -/
theorem c9_event_callback_setters (s : CompState) (v : JSVal) (e : Engine)
    (hsp : s.signaturePad = some e) :
    (v.isFn = false →
      setOnBegin s v = (s, some JsErr.configError) ∧
      setOnEnd s v = (s, some JsErr.configError)) ∧
    (v.isFn = true →
      setOnBegin s v = ({ s with signaturePad := some { e with onBegin := v } }, none) ∧
      setOnEnd s v = ({ s with signaturePad := some { e with onEnd := v } }, none)) := by
  constructor
  · intro hv
    unfold setOnBegin setOnEnd
    rw [hv]
    simp
  · intro hv
    cases v with
    | undef => simp [JSVal.isFn] at hv
    | bool b => simp [JSVal.isFn] at hv
    | fn k =>
      unfold setOnBegin setOnEnd
      rw [hsp]
      simp [JSVal.truthy, JSVal.isFn]

theorem c9_event_callback_setters_witness :
    ((⟨some ⟨300, 150, 300, 150, 1, false⟩, some ⟨"sig", true, JSVal.undef,
        JSVal.undef⟩, 300, 150, false⟩ : CompState).signaturePad =
      some ⟨"sig", true, JSVal.undef, JSVal.undef⟩) ∧
    (setOnBegin (⟨some ⟨300, 150, 300, 150, 1, false⟩, some ⟨"sig", true,
        JSVal.undef, JSVal.undef⟩, 300, 150, false⟩ : CompState)
      (JSVal.fn 5)).2 = none ∧
    (setOnEnd (⟨some ⟨300, 150, 300, 150, 1, false⟩, some ⟨"sig", true,
        JSVal.undef, JSVal.undef⟩, 300, 150, false⟩ : CompState)
      (JSVal.bool true)).2 = some JsErr.configError := by
  have h := c9_event_callback_setters
    (⟨some ⟨300, 150, 300, 150, 1, false⟩, some ⟨"sig", true, JSVal.undef,
      JSVal.undef⟩, 300, 150, false⟩ : CompState)
    (JSVal.fn 5) ⟨"sig", true, JSVal.undef, JSVal.undef⟩ rfl
  have h2 := c9_event_callback_setters
    (⟨some ⟨300, 150, 300, 150, 1, false⟩, some ⟨"sig", true, JSVal.undef,
      JSVal.undef⟩, 300, 150, false⟩ : CompState)
    (JSVal.bool true) ⟨"sig", true, JSVal.undef, JSVal.undef⟩ rfl
  exact ⟨rfl, congrArg Prod.snd ((h.2 rfl).1),
    congrArg Prod.snd ((h2.1 rfl).2)⟩

/-- Claim C10: the onBegin and onEnd setters are atomic on error — the
callable check runs before any assignment, so when the configuration error
is raised the component state, including the engine and its callback
properties, is left exactly unchanged. -/
theorem c10_setter_atomic (s : CompState) (v : JSVal) (hv : v.isFn = false) :
    (setOnBegin s v).1 = s ∧ (setOnBegin s v).2 = some JsErr.configError ∧
    (setOnEnd s v).1 = s ∧ (setOnEnd s v).2 = some JsErr.configError := by
  unfold setOnBegin setOnEnd
  rw [hv]
  simp

theorem c10_setter_atomic_witness :
    (JSVal.bool true).isFn = false ∧
    (setOnBegin (⟨some ⟨300, 150, 300, 150, 1, false⟩, some ⟨"sig", true,
        JSVal.undef, JSVal.undef⟩, 300, 150, false⟩ : CompState)
      (JSVal.bool true)).1 =
      (⟨some ⟨300, 150, 300, 150, 1, false⟩, some ⟨"sig", true, JSVal.undef,
        JSVal.undef⟩, 300, 150, false⟩ : CompState) ∧
    (setOnEnd (⟨some ⟨300, 150, 300, 150, 1, false⟩, some ⟨"sig", true,
        JSVal.undef, JSVal.undef⟩, 300, 150, false⟩ : CompState)
      (JSVal.bool true)).2 = some JsErr.configError := by
  have h := c10_setter_atomic
    (⟨some ⟨300, 150, 300, 150, 1, false⟩, some ⟨"sig", true, JSVal.undef,
      JSVal.undef⟩, 300, 150, false⟩ : CompState)
    (JSVal.bool true) rfl
  exact ⟨rfl, h.1, h.2.2.2⟩

end RSPW
